import Mathlib

/-!
Verification development for the Bright Horizon tuition-centre fee-management
application (`app.py`).

Strings are modelled as lists of Unicode code points (`List Nat`); monetary
values (Python floats) are modelled as rationals (`Rat`); MongoDB collections
are modelled as in-order lists of documents.  Request handlers are modelled as
functions returning `Option` of a result: `none` models an exception
propagating out of the handler (a generic server failure), `some` models a
normal response (flash message plus redirect).
-/

namespace BrightHorizon

set_option autoImplicit false

/-- Code points of a string literal, used to state concrete examples. -/
def strCodes (s : String) : List Nat := s.data.map Char.toNat

/-- The code points Python's `str.split()` treats as whitespace
(`str` whitespace: ASCII 9–13, 28–31, 32 and the Unicode space set). -/
def isSpaceCode (n : Nat) : Bool :=
  decide (n = 9 ∨ n = 10 ∨ n = 11 ∨ n = 12 ∨ n = 13 ∨ n = 28 ∨ n = 29 ∨ n = 30 ∨
    n = 31 ∨ n = 32 ∨ n = 133 ∨ n = 160 ∨ n = 5760 ∨ n = 8192 ∨ n = 8193 ∨
    n = 8194 ∨ n = 8195 ∨ n = 8196 ∨ n = 8197 ∨ n = 8198 ∨ n = 8199 ∨
    n = 8200 ∨ n = 8201 ∨ n = 8202 ∨ n = 8232 ∨ n = 8233 ∨ n = 8239 ∨
    n = 8287 ∨ n = 12288)

/-- Cased letters.  The spec requires only basic ASCII case folding, so the
model's cased set is the ASCII letters. -/
def isCasedCode (n : Nat) : Bool :=
  decide ((65 ≤ n ∧ n ≤ 90) ∨ (97 ≤ n ∧ n ≤ 122))

/-- ASCII upper-casing of one code point (Python `str.upper` / `str.title`
restricted to ASCII, per the spec's case-folding scope). -/
def upperChar (n : Nat) : Nat :=
  if 97 ≤ n ∧ n ≤ 122 then n - 32 else n

/-- ASCII lower-casing of one code point. -/
def lowerChar (n : Nat) : Nat :=
  if 65 ≤ n ∧ n ≤ 90 then n + 32 else n

/-- Python `name.split()`: split on runs of whitespace, discarding empty tokens.
`acc` holds the code points of the word currently being read, reversed. -/
def pySplitAux : List Nat → List Nat → List (List Nat)
  | [], acc => if acc = [] then [] else [acc.reverse]
  | c :: cs, acc =>
    if isSpaceCode c then
      if acc = [] then pySplitAux cs [] else acc.reverse :: pySplitAux cs []
    else
      pySplitAux cs (c :: acc)

/-- Python `name.split()` as used in `clean_name`. -/
def pySplit (l : List Nat) : List (List Nat) := pySplitAux l []

/-- Tail of `" ".join`: a single space (code 32) before every further word. -/
def sepJoin : List (List Nat) → List Nat
  | [] => []
  | w :: ws => 32 :: (w ++ sepJoin ws)

/-- Python `" ".join(words)`. -/
def joinWords : List (List Nat) → List Nat
  | [] => []
  | w :: ws => w ++ sepJoin ws

/-- CPython `str.title` body: a cased character is upper-cased when the
previous character is not cased, lower-cased otherwise; `prev` says whether
the previous character was cased (`false` at the start of the string). -/
def pyTitleAux : Bool → List Nat → List Nat
  | _, [] => []
  | prev, c :: cs =>
    (if prev then lowerChar c else upperChar c) :: pyTitleAux (isCasedCode c) cs

/-- Python `s.title()`. -/
def pyTitle (l : List Nat) : List Nat := pyTitleAux false l

/-- Function `clean_name` from `app.py` (lines 13–26): `""` for falsy input (absent
string or empty string), otherwise `" ".join(name.split()).title()`. -/
def clean_name (name : Option (List Nat)) : List Nat :=
  match name with
  | none => []
  | some l => if l = [] then [] else pyTitle (joinWords (pySplit l))

/-- Python `s.strip()`: remove leading and trailing whitespace. -/
def pyStrip (l : List Nat) : List Nat :=
  ((l.dropWhile isSpaceCode).reverse.dropWhile isSpaceCode).reverse

/-- Whether the last character of `l` is cased (`b` when `l` is empty): the
state `pyTitleAux` is in after consuming `l`. -/
def casedEnd (b : Bool) : List Nat → Bool
  | [] => b
  | c :: cs => casedEnd (isCasedCode c) cs

/-- Per-token title-casing as the spec describes it: first character
upper-cased, every later character of the token lower-cased. -/
def claimTitleWord : List Nat → List Nat
  | [] => []
  | c :: cs => upperChar c :: cs.map lowerChar

/-- The Name Normalizer exactly as the spec's words describe it (for
comparison with `clean_name`, which is translated from the code):
`""` for falsy input, whitespace runs collapsed, then each token
title-cased with only its first character capitalized. -/
def claimNormalize (name : Option (List Nat)) : List Nat :=
  match name with
  | none => []
  | some l => joinWords ((pySplit l).map claimTitleWord)

/-! ### Numeric form-field parsing -/

/-- ASCII decimal digit. -/
def isDigitCode (n : Nat) : Bool := decide (48 ≤ n ∧ n ≤ 57)

/-- Value of a string of decimal digits. -/
def digitsVal (l : List Nat) : Nat :=
  l.foldl (fun a c => a * 10 + (c - 48)) 0

/-- Modelled from the spec (Python's builtin `float` on strings, external to
the repository): parses `digits`, `digits.digits`, `digits.` or `.digits`,
yielding `none` for anything else (`float` raises `ValueError`).  Exponent,
`inf`/`nan` forms and surrounding whitespace are outside the model's scope;
the decisive behaviour for the claims is success versus `ValueError`. -/
def parseUnsignedFloat (l : List Nat) : Option Rat :=
  let ip := l.takeWhile isDigitCode
  let rest := l.dropWhile isDigitCode
  match rest with
  | [] => if ip.isEmpty then none else some (digitsVal ip : Rat)
  | 46 :: fp =>
    if fp.all isDigitCode && !(ip.isEmpty && fp.isEmpty) then
      some ((digitsVal ip : Rat) + (digitsVal fp : Rat) / ((10 : Rat) ^ fp.length))
    else none
  | _ => none

/-- Python `float(s)` with an optional leading sign. -/
def pyFloat (s : List Nat) : Option Rat :=
  match s with
  | 43 :: rest => parseUnsignedFloat rest
  | 45 :: rest => (parseUnsignedFloat rest).map (fun q => -q)
  | _ => parseUnsignedFloat s

/-- The expression `float(request.form.get(field) or 0)` with no exception handler, as in
`add_student` (line 220) and `edit_student` (line 266): an absent or empty
field is falsy, so `float(0) = 0`; a non-empty field is parsed and `none`
models the uncaught `ValueError`. -/
def parseFeeField (v : Option (List Nat)) : Option Rat :=
  match v with
  | none => some 0
  | some [] => some 0
  | some s => pyFloat s

/-- The same expression wrapped in `try/except ValueError: amount = 0`, as in
`add_payment` (lines 307–310): total, malformed input coerces to `0`. -/
def parseAmountField (v : Option (List Nat)) : Rat :=
  (parseFeeField v).getD 0

/-- Modelled from the spec (`bson.ObjectId`, external library): a path
identifier is well-formed exactly when it is 24 hexadecimal characters;
`none` models the exception `ObjectId` raises on anything else. -/
def parseOid (s : List Nat) : Option Nat :=
  if s.length = 24 ∧ s.all (fun n => decide ((48 ≤ n ∧ n ≤ 57) ∨ (97 ≤ n ∧ n ≤ 102) ∨ (65 ≤ n ∧ n ≤ 70))) = true then
    some (s.foldl (fun a c =>
      a * 16 + (if 48 ≤ c ∧ c ≤ 57 then c - 48 else if 97 ≤ c then c - 87 else c - 55)) 0)
  else none

/-! ### Data model -/

/-- One embedded payment document. -/
structure Payment where
  amount : Rat
  date : Nat
  note : Option (List Nat)
  deriving DecidableEq

/-- One student document. -/
structure Student where
  sid : Nat
  name : List Nat
  cls : List Nat
  contact : List Nat
  total_fee : Rat
  payments : List Payment
  created_at : Nat
  updated_at : Nat
  deriving DecidableEq

/-- Structured payload of an audit-log entry (`details` in `log_action`). -/
inductive LogDetails where
  | addStudent (sid : Nat) (name : List Nat)
  | editStudent (sidStr : List Nat)
  | deleteStudent (sidStr : List Nat)
  | addPayment (sidStr : List Nat) (amount : Rat)
  deriving DecidableEq

/-- One audit-log document. -/
structure LogEntry where
  action : List Nat
  details : LogDetails
  by_ : List Nat
  at_ : Nat
  deriving DecidableEq

/-- One admin document. -/
structure Admin where
  aid : Nat
  username : List Nat
  password_hash : List Nat
  deriving DecidableEq

/-- The document store: the `students` and `logs` collections, in insertion
order. -/
structure Store where
  students : List Student
  logs : List LogEntry
  deriving DecidableEq

/-- A flash message: text and category. -/
structure Flash where
  msg : List Nat
  cat : List Nat
  deriving DecidableEq

/-- A handler's normal response: resulting store, flash message, redirect
target (endpoint name). -/
structure HResult where
  store : Store
  flash : Flash
  redirect : List Nat
  deriving DecidableEq

/-! ### Core computations and handlers -/

/-- Function `calc_unpaid` (lines 106–110): `total_fee - sum(p["amount"])`, via
Python's left fold `sum`. -/
def calc_unpaid (student : Student) : Rat :=
  student.total_fee - (student.payments.map Payment.amount).foldl (· + ·) 0

/-- Function `log_action` (lines 113–119): append one entry; `by` is the current
admin's username or the `"system"` sentinel. -/
def log_action (db : Store) (act : List Nat) (details : LogDetails)
    (actor : Option (List Nat)) (now : Nat) : Store :=
  let entry : LogEntry :=
    { action := act, details := details,
      by_ := actor.getD (strCodes "system"), at_ := now }
  { db with logs := db.logs ++ [entry] }

/-- Modelled from the spec (werkzeug password hashing, external
infrastructure): an injective stand-in hash. -/
def pwdHash (p : List Nat) : List Nat := 1 :: p

/-- Werkzeug `check_password_hash` (external): does the stored hash match the
submitted password. -/
def check_password_hash (hash pwd : List Nat) : Bool := hash == pwdHash pwd

/-- Outcome of a login attempt. -/
inductive LoginResult where
  | failed (flash : Flash) (redirect : List Nat)
  | ok (adminId : Nat) (flash : Flash) (redirect : List Nat)
  deriving DecidableEq

/-- Handler `login`, POST branch (lines 129–148): look the username up, reject with
one generic message when absent or on hash mismatch, else establish the
session and redirect to the dashboard. -/
def login (admins : List Admin) (username password : List Nat) : LoginResult :=
  match admins.find? (fun a => a.username == username) with
  | none => .failed ⟨strCodes "Invalid credentials", strCodes "error"⟩ (strCodes "login")
  | some a =>
    if check_password_hash a.password_hash password then
      .ok a.aid ⟨strCodes "Logged in", strCodes "success"⟩ (strCodes "dashboard")
    else
      .failed ⟨strCodes "Invalid credentials", strCodes "error"⟩ (strCodes "login")

/-- Mongo `update_one`: rewrite the first document matching `p` with `f`. -/
def updateFirst (p : Student → Bool) (f : Student → Student) :
    List Student → List Student
  | [] => []
  | s :: ss => if p s then f s :: ss else s :: updateFirst p f ss

/-- Handler `add_student`, POST branch (lines 212–247): normalize the name, strip
class and contact, parse the fee (`none` = uncaught `ValueError`), reject on
a duplicate (normalized name, class) pair without persisting, else insert
with empty payments and both timestamps `now`, and log. -/
def add_student (db : Store) (actor : Option (List Nat)) (now : Nat)
    (newId : Nat) (rawName rawCls rawContact rawFee : Option (List Nat)) :
    Option HResult :=
  let name := clean_name rawName
  let cls := pyStrip (rawCls.getD [])
  let contact := pyStrip (rawContact.getD [])
  match parseFeeField rawFee with
  | none => none
  | some fee =>
    if db.students.any (fun s => s.name == name && s.cls == cls) then
      some { store := db,
             flash := ⟨strCodes "⚠ A student with this name already exists in this class!",
                       strCodes "warning"⟩,
             redirect := strCodes "add_student" }
    else
      let st : Student :=
        { sid := newId, name := name, cls := cls,
          contact := contact, total_fee := fee, payments := [],
          created_at := now, updated_at := now }
      let db2 := log_action { db with students := db.students ++ [st] }
        (strCodes "add_student") (.addStudent newId name) actor now
      some { store := db2, flash := ⟨strCodes "Student added", strCodes "success"⟩,
             redirect := strCodes "students_list" }

/-- Handler `edit_student`, POST branch (lines 252–287): `ObjectId(sid)` raises on a
malformed id (`none`); a missing student yields the not-found flash; then
normalize/strip/parse as in create, re-check the duplicate pair excluding
this document, reject on conflict without persisting, else overwrite
name/class/contact/total_fee, refresh `updated_at`, and log. -/
def edit_student (db : Store) (actor : Option (List Nat)) (now : Nat)
    (sidStr : List Nat) (rawName rawCls rawContact rawFee : Option (List Nat)) :
    Option HResult :=
  match parseOid sidStr with
  | none => none
  | some oid =>
    match db.students.find? (fun s => s.sid == oid) with
    | none =>
      some { store := db,
             flash := ⟨strCodes "Student not found", strCodes "error"⟩,
             redirect := strCodes "students_list" }
    | some _ =>
      let name := clean_name rawName
      let cls := pyStrip (rawCls.getD [])
      let contact := pyStrip (rawContact.getD [])
      match parseFeeField rawFee with
      | none => none
      | some fee =>
        if db.students.any (fun s => s.name == name && s.cls == cls && !(s.sid == oid)) then
          some { store := db,
                 flash := ⟨strCodes "⚠ Another student with this name already exists in this class!",
                           strCodes "warning"⟩,
                 redirect := strCodes "edit_student" }
        else
          let overwrite : Student → Student := fun s =>
            { s with name := name, cls := cls, contact := contact,
                     total_fee := fee, updated_at := now }
          let db1 : Store :=
            { db with students := updateFirst (fun s => s.sid == oid) overwrite db.students }
          let db2 := log_action db1 (strCodes "edit_student") (.editStudent sidStr) actor now
          some { store := db2,
                 flash := ⟨strCodes "Student updated", strCodes "success"⟩,
                 redirect := strCodes "students_list" }

/-- Handler `delete_student` (lines 295–301): `ObjectId(sid)` raises on a malformed
id; otherwise `delete_one` removes the first matching document (nothing when
none matches), the action is logged and a success flash is shown
unconditionally. -/
def delete_student (db : Store) (actor : Option (List Nat)) (now : Nat)
    (sidStr : List Nat) : Option HResult :=
  match parseOid sidStr with
  | none => none
  | some oid =>
    let db2 := log_action { db with students := db.students.eraseP (fun s => s.sid == oid) }
      (strCodes "delete_student") (.deleteStudent sidStr) actor now
    some { store := db2, flash := ⟨strCodes "Student deleted", strCodes "success"⟩,
           redirect := strCodes "students_list" }

/-- Handler `add_payment` (lines 304–324): parse the amount with the `ValueError`
handler (total), build the payment, then `ObjectId(sid)` raises on a
malformed id; otherwise `update_one` pushes the payment and refreshes
`updated_at` on the first matching document (nothing when none matches), the
action is logged and a success flash is shown unconditionally. -/
def add_payment (db : Store) (actor : Option (List Nat)) (now : Nat)
    (sidStr : List Nat) (rawAmount rawNote : Option (List Nat)) :
    Option HResult :=
  let amount := parseAmountField rawAmount
  let payment : Payment := { amount := amount, date := now, note := rawNote }
  match parseOid sidStr with
  | none => none
  | some oid =>
    let pushPayment : Student → Student := fun s =>
      { s with payments := s.payments ++ [payment], updated_at := now }
    let db1 : Store :=
      { db with students := updateFirst (fun s => s.sid == oid) pushPayment db.students }
    let db2 := log_action db1 (strCodes "add_payment") (.addPayment sidStr amount) actor now
    some { store := db2, flash := ⟨strCodes "Payment recorded", strCodes "success"⟩,
           redirect := strCodes "edit_student" }

/-! ## Lemmas about the character-level operations -/

theorem upperChar_idem (n : Nat) : upperChar (upperChar n) = upperChar n := by
  rcases Decidable.em (97 ≤ n ∧ n ≤ 122) with h | h
  · have h1 : upperChar n = n - 32 := if_pos h
    rw [h1]
    exact if_neg (by omega)
  · have h1 : upperChar n = n := if_neg h
    rw [h1]
    exact h1

theorem lowerChar_idem (n : Nat) : lowerChar (lowerChar n) = lowerChar n := by
  rcases Decidable.em (65 ≤ n ∧ n ≤ 90) with h | h
  · have h1 : lowerChar n = n + 32 := if_pos h
    rw [h1]
    exact if_neg (by omega)
  · have h1 : lowerChar n = n := if_neg h
    rw [h1]
    exact h1

theorem isCasedCode_upperChar (n : Nat) : isCasedCode (upperChar n) = isCasedCode n := by
  unfold upperChar
  split <;> first
  | rfl
  | (simp only [isCasedCode]; rw [decide_eq_decide]; omega)

theorem isCasedCode_lowerChar (n : Nat) : isCasedCode (lowerChar n) = isCasedCode n := by
  unfold lowerChar
  split <;> first
  | rfl
  | (simp only [isCasedCode]; rw [decide_eq_decide]; omega)

theorem isSpaceCode_upperChar (n : Nat) : isSpaceCode (upperChar n) = isSpaceCode n := by
  unfold upperChar
  split <;> first
  | rfl
  | (simp only [isSpaceCode]; rw [decide_eq_decide]; omega)

theorem isSpaceCode_lowerChar (n : Nat) : isSpaceCode (lowerChar n) = isSpaceCode n := by
  unfold lowerChar
  split <;> first
  | rfl
  | (simp only [isSpaceCode]; rw [decide_eq_decide]; omega)

/-! ## Lemmas about splitting and joining -/

theorem pySplitAux_sound (l : List Nat) :
    ∀ acc : List Nat, (∀ c ∈ acc, isSpaceCode c = false) →
    ∀ w ∈ pySplitAux l acc, w ≠ [] ∧ ∀ c ∈ w, isSpaceCode c = false := by
  induction l with
  | nil =>
    intro acc hacc w hw
    simp only [pySplitAux] at hw
    split at hw
    · simp at hw
    · next hne =>
      simp only [List.mem_singleton] at hw
      subst hw
      refine ⟨by simpa [List.reverse_eq_nil_iff] using hne, ?_⟩
      intro c hc
      exact hacc c (List.mem_reverse.mp hc)
  | cons c cs ih =>
    intro acc hacc w hw
    simp only [pySplitAux] at hw
    by_cases hc : isSpaceCode c = true
    · rw [if_pos hc] at hw
      split at hw
      · exact ih [] (by simp) w hw
      · next hne =>
        rcases List.mem_cons.mp hw with hw | hw
        · subst hw
          refine ⟨by simpa [List.reverse_eq_nil_iff] using hne, ?_⟩
          intro d hd
          exact hacc d (List.mem_reverse.mp hd)
        · exact ih [] (by simp) w hw
    · rw [if_neg hc] at hw
      refine ih (c :: acc) ?_ w hw
      intro d hd
      rcases List.mem_cons.mp hd with hd | hd
      · subst hd; exact Bool.not_eq_true _ ▸ hc
      · exact hacc d hd

theorem pySplit_sound (l : List Nat) :
    ∀ w ∈ pySplit l, w ≠ [] ∧ ∀ c ∈ w, isSpaceCode c = false :=
  pySplitAux_sound l [] (by simp)

theorem pySplitAux_word (w : List Nat) (hw : ∀ c ∈ w, isSpaceCode c = false) :
    ∀ rest acc : List Nat,
    pySplitAux (w ++ rest) acc = pySplitAux rest (w.reverse ++ acc) := by
  induction w with
  | nil => intro rest acc; simp
  | cons c cs ih =>
    intro rest acc
    have hc : isSpaceCode c = false := hw c (by simp)
    have h2 := ih (fun d hd => hw d (List.mem_cons_of_mem c hd)) rest (c :: acc)
    simp only [List.cons_append, pySplitAux, hc, Bool.false_eq_true, if_false]
    rw [List.reverse_cons, List.append_assoc]
    exact h2

theorem pySplitAux_space (c : Nat) (hc : isSpaceCode c = true) (cs acc : List Nat) :
    pySplitAux (c :: cs) acc =
      if acc = [] then pySplitAux cs [] else acc.reverse :: pySplitAux cs [] := by
  simp [pySplitAux, hc]

theorem pySplit_joinWords (ws : List (List Nat))
    (h : ∀ w ∈ ws, w ≠ [] ∧ ∀ c ∈ w, isSpaceCode c = false) :
    pySplit (joinWords ws) = ws := by
  induction ws with
  | nil => rfl
  | cons w ws ih =>
    obtain ⟨hne, hsp⟩ := h w (List.mem_cons_self w ws)
    have hwrev : ¬ w.reverse = [] := by
      simp only [List.reverse_eq_nil_iff]
      exact hne
    show pySplitAux (w ++ sepJoin ws) [] = w :: ws
    rw [pySplitAux_word w hsp (sepJoin ws) [], List.append_nil]
    cases ws with
    | nil =>
      show pySplitAux [] w.reverse = [w]
      simp only [pySplitAux]
      rw [if_neg hwrev, List.reverse_reverse]
    | cons w2 ws2 =>
      have hrec : pySplitAux (w2 ++ sepJoin ws2) [] = w2 :: ws2 :=
        ih (fun v hv => h v (List.mem_cons_of_mem w hv))
      show pySplitAux (32 :: (w2 ++ sepJoin ws2)) w.reverse = w :: w2 :: ws2
      rw [pySplitAux_space 32 (by decide) _ _, if_neg hwrev, List.reverse_reverse, hrec]

/-! ## Lemmas about title-casing -/

theorem pyTitleAux_append (xs : List Nat) :
    ∀ (b : Bool) (ys : List Nat),
    pyTitleAux b (xs ++ ys) = pyTitleAux b xs ++ pyTitleAux (casedEnd b xs) ys := by
  induction xs with
  | nil => intro b ys; rfl
  | cons c cs ih =>
    intro b ys
    simp only [List.cons_append, pyTitleAux, casedEnd]
    exact congrArg _ (ih (isCasedCode c) ys)

theorem pyTitleAux_sepJoin (ws : List (List Nat)) :
    ∀ b : Bool,
    pyTitleAux b (sepJoin ws) = sepJoin (ws.map (pyTitleAux false)) := by
  induction ws with
  | nil => intro b; rfl
  | cons w ws ih =>
    intro b
    show pyTitleAux b (32 :: (w ++ sepJoin ws)) =
      32 :: (pyTitleAux false w ++ sepJoin (ws.map (pyTitleAux false)))
    simp only [pyTitleAux]
    rw [pyTitleAux_append w (isCasedCode 32) (sepJoin ws), ih (casedEnd (isCasedCode 32) w)]
    have h32 : (if b then lowerChar 32 else upperChar 32) = 32 := by cases b <;> rfl
    rw [h32]
    rfl

theorem pyTitle_joinWords (ws : List (List Nat)) :
    pyTitle (joinWords ws) = joinWords (ws.map (pyTitleAux false)) := by
  cases ws with
  | nil => rfl
  | cons w ws =>
    show pyTitleAux false (w ++ sepJoin ws) =
      pyTitleAux false w ++ sepJoin (ws.map (pyTitleAux false))
    rw [pyTitleAux_append w false (sepJoin ws), pyTitleAux_sepJoin ws (casedEnd false w)]

theorem pyTitleAux_idem (l : List Nat) :
    ∀ b : Bool, pyTitleAux b (pyTitleAux b l) = pyTitleAux b l := by
  induction l with
  | nil => intro b; rfl
  | cons c cs ih =>
    intro b
    cases b with
    | false =>
      simp only [pyTitleAux, Bool.false_eq_true, if_false]
      rw [upperChar_idem, isCasedCode_upperChar, ih (isCasedCode c)]
    | true =>
      simp only [pyTitleAux, if_true]
      rw [lowerChar_idem, isCasedCode_lowerChar, ih (isCasedCode c)]

theorem pyTitleAux_ne_nil (b : Bool) (w : List Nat) (h : w ≠ []) :
    pyTitleAux b w ≠ [] := by
  cases w with
  | nil => exact absurd rfl h
  | cons c cs => simp [pyTitleAux]

theorem isSpaceCode_pyTitleAux (w : List Nat) :
    ∀ b : Bool, (∀ c ∈ w, isSpaceCode c = false) →
    ∀ c ∈ pyTitleAux b w, isSpaceCode c = false := by
  induction w with
  | nil => intro b _ c hc; simp [pyTitleAux] at hc
  | cons c cs ih =>
    intro b h d hd
    simp only [pyTitleAux, List.mem_cons] at hd
    rcases hd with hd | hd
    · subst hd
      cases b with
      | false =>
        simp only [Bool.false_eq_true, if_false]
        rw [isSpaceCode_upperChar]
        exact h c (by simp)
      | true =>
        simp only [if_true]
        rw [isSpaceCode_lowerChar]
        exact h c (by simp)
    · exact ih (isCasedCode c) (fun e he => h e (List.mem_cons_of_mem c he)) d hd

/-- The words of a normalizer output are nonempty and whitespace-free. -/
theorem titled_words_sound (l : List Nat) :
    ∀ w ∈ (pySplit l).map (pyTitleAux false), w ≠ [] ∧ ∀ c ∈ w, isSpaceCode c = false := by
  intro w hw
  obtain ⟨v, hv, rfl⟩ := List.mem_map.mp hw
  obtain ⟨hne, hsp⟩ := pySplit_sound l v hv
  exact ⟨pyTitleAux_ne_nil false v hne, isSpaceCode_pyTitleAux v false hsp⟩

/-! ## Claims C2 and C8: the Name Normalizer -/

/-- Claim C2, counterexample: on the input `"o'neill"` (code points
`[111, 39, 110, 101, 105, 108, 108]`), `clean_name` capitalizes the character
after the apostrophe — it returns `"O'Neill"` (`[79, 39, 78, …]`), not the
`"O'neill"` (`[79, 39, 110, …]`) that the claim's per-token
first-upper-rest-lower rule (`claimNormalize`) prescribes. -/
theorem clean_name_claim_cex :
    clean_name (some [111, 39, 110, 101, 105, 108, 108]) ≠
      claimNormalize (some [111, 39, 110, 101, 105, 108, 108]) ∧
    clean_name (some [111, 39, 110, 101, 105, 108, 108]) =
      [79, 39, 78, 101, 105, 108, 108] ∧
    claimNormalize (some [111, 39, 110, 101, 105, 108, 108]) =
      [79, 39, 110, 101, 105, 108, 108] := by
  refine ⟨?_, by decide, by decide⟩
  decide

/-- Claim C2 (amended): `clean_name` returns `""` for falsy input and
otherwise collapses all whitespace runs (including leading/trailing) to
single spaces and title-cases each whitespace-separated token independently
(`pyTitleAux false` per token), where a cased character is capitalized
exactly when the preceding character of its token is not a cased letter — so
after an apostrophe or hyphen the character IS capitalized, not lower-cased.
Second conjunct: the spec's own worked example. -/
theorem clean_name_spec :
    (∀ x : Option (List Nat),
      clean_name x = joinWords ((pySplit (x.getD [])).map (pyTitleAux false))) ∧
    clean_name (some (strCodes "  moHaMmAd   fairoz  ")) = strCodes "Mohammad Fairoz" := by
  constructor
  · intro x
    cases x with
    | none => rfl
    | some l =>
      by_cases hl : l = []
      · subst hl; rfl
      · show (if l = [] then [] else pyTitle (joinWords (pySplit l))) = _
        rw [if_neg hl]
        exact pyTitle_joinWords (pySplit l)
  · decide

/-- Claim C8: the Name Normalizer is idempotent —
`clean_name (clean_name x) = clean_name x` for every input (including the
falsy one). -/
theorem clean_name_idem (x : Option (List Nat)) :
    clean_name (some (clean_name x)) = clean_name x := by
  cases x with
  | none => rfl
  | some l =>
    by_cases hl : l = []
    · subst hl; rfl
    · have hout : clean_name (some l) = joinWords ((pySplit l).map (pyTitleAux false)) := by
        show (if l = [] then [] else pyTitle (joinWords (pySplit l))) = _
        rw [if_neg hl]
        exact pyTitle_joinWords (pySplit l)
      rw [hout]
      by_cases ho : joinWords ((pySplit l).map (pyTitleAux false)) = []
      · rw [ho]
        rfl
      · show (if joinWords ((pySplit l).map (pyTitleAux false)) = [] then []
          else pyTitle (joinWords (pySplit (joinWords ((pySplit l).map (pyTitleAux false)))))) = _
        rw [if_neg ho]
        rw [pySplit_joinWords _ (titled_words_sound l)]
        rw [pyTitle_joinWords, List.map_map]
        congr 1
        apply List.map_congr_left
        intro w _
        exact pyTitleAux_idem w false

/-! ## Helper lemmas about the store operations -/

theorem updateFirst_map {α : Type} (p : Student → Bool) (f : Student → Student)
    (g : Student → α) (hg : ∀ s, g (f s) = g s) :
    ∀ l : List Student, (updateFirst p f l).map g = l.map g := by
  intro l
  induction l with
  | nil => rfl
  | cons s ss ih =>
    simp only [updateFirst]
    split
    · simp [hg s]
    · simp [ih]

theorem updateFirst_no_match (p : Student → Bool) (f : Student → Student) :
    ∀ l : List Student, (∀ a ∈ l, p a = false) → updateFirst p f l = l := by
  intro l h
  induction l with
  | nil => rfl
  | cons s ss ih =>
    have hs : p s = false := h s (by simp)
    simp only [updateFirst, hs, Bool.false_eq_true, if_false]
    rw [ih (fun a ha => h a (List.mem_cons_of_mem s ha))]

theorem eraseP_no_match (p : Student → Bool) :
    ∀ l : List Student, (∀ a ∈ l, p a = false) → l.eraseP p = l := by
  intro l h
  induction l with
  | nil => rfl
  | cons s ss ih =>
    have hs : p s = false := h s (by simp)
    rw [List.eraseP_cons, hs]
    show s :: ss.eraseP p = s :: ss
    rw [ih (fun a ha => h a (List.mem_cons_of_mem s ha))]

/-! ## Claim C4: unpaid balance -/

/-- Claim C4: `calc_unpaid` equals `total_fee` minus the sum of the recorded
payment amounts; the result may be negative (no clamping), and the spec's
worked example evaluates to `500`. -/
theorem calc_unpaid_spec :
    (∀ st : Student,
      calc_unpaid st = st.total_fee - (st.payments.map Payment.amount).sum) ∧
    (∃ st : Student, calc_unpaid st < 0) ∧
    calc_unpaid ⟨1, [], [], [], 1000, [⟨300, 0, none⟩, ⟨200, 0, none⟩], 0, 0⟩ = 500 := by
  refine ⟨?_, ⟨⟨1, [], [], [], 0, [⟨1, 0, none⟩], 0, 0⟩, by norm_num [calc_unpaid]⟩,
    by norm_num [calc_unpaid]⟩
  intro st
  unfold calc_unpaid
  rw [List.sum_eq_foldl]

/-! ## Claim C1: malformed numeric input -/

/-- Claim C1, counterexample: `"abc"` is malformed numeric input
(`float` raises `ValueError`), and a Create carrying it as `total_fee` does
not coerce it to 0 — the handler raises (models an unhandled exception /
generic server failure), contradicting the claim that malformed numeric
input is never surfaced as an error for Create. -/
theorem malformed_fee_cex :
    pyFloat (strCodes "abc") = none ∧
    add_student ⟨[], []⟩ none 0 1 (some (strCodes "Bob")) (some (strCodes "5")) none
      (some (strCodes "abc")) = none := by
  exact ⟨by decide, by decide⟩

/-- Claim C1 (amended): only `add_payment` coerces malformed `amount` input
to 0 (its parse is wrapped in `try/except ValueError`); for Create and
Update an absent or empty `total_fee` coerces to 0, but a non-empty
unparsable `total_fee` raises an unhandled exception (a generic server
failure) instead of being coerced. -/
theorem malformed_fee_amended (s : List Nat) (hne : s ≠ []) (hbad : pyFloat s = none) :
    parseAmountField (some s) = 0 ∧
    (∀ (db : Store) (actor : Option (List Nat)) (now newId : Nat)
       (rawName rawCls rawContact : Option (List Nat)),
      add_student db actor now newId rawName rawCls rawContact (some s) = none) ∧
    (∀ (db : Store) (actor : Option (List Nat)) (now : Nat) (sidStr : List Nat)
       (oid : Nat) (st : Student) (rawName rawCls rawContact : Option (List Nat)),
      parseOid sidStr = some oid →
      db.students.find? (fun x => x.sid == oid) = some st →
      edit_student db actor now sidStr rawName rawCls rawContact (some s) = none) ∧
    (∀ (db : Store) (actor : Option (List Nat)) (now : Nat) (sidStr : List Nat)
       (oid : Nat) (rawNote : Option (List Nat)),
      parseOid sidStr = some oid →
      (add_payment db actor now sidStr (some s) rawNote).isSome = true) := by
  have hfee : parseFeeField (some s) = none := by
    cases s with
    | nil => exact absurd rfl hne
    | cons c cs => simp only [parseFeeField]; exact hbad
  have hamt : parseAmountField (some s) = 0 := by
    simp [parseAmountField, hfee]
  refine ⟨hamt, ?_, ?_, ?_⟩
  · intro db actor now newId rawName rawCls rawContact
    simp [add_student, hfee]
  · intro db actor now sidStr oid st rawName rawCls rawContact hoid hfind
    simp [edit_student, hoid, hfind, hfee]
  · intro db actor now sidStr oid rawNote hoid
    simp [add_payment, hoid]

/-- Witness for C1 (amended) at the concrete malformed input `"abc"`. -/
theorem malformed_fee_amended_witness :
    parseAmountField (some (strCodes "abc")) = 0 ∧
    add_student ⟨[], []⟩ none 0 1 none none none (some (strCodes "abc")) = none := by
  have h := malformed_fee_amended (strCodes "abc") (by decide) (by decide)
  exact ⟨h.1, h.2.1 ⟨[], []⟩ none 0 1 none none none⟩

/-! ## Claim C3: Create uniqueness scoped to (name, class) -/

/-- Claim C3: a Create whose normalized name and class match a stored
student is rejected with the duplicate-conflict flash and the store is left
unchanged (count unchanged); when no stored student has that (normalized
name, class) pair — in particular the same name in a different class — the
Create succeeds and persists exactly one new document with `payments = []`
and both timestamps `now`. -/
theorem add_student_unique (db : Store) (actor : Option (List Nat)) (now newId : Nat)
    (rawName rawCls rawContact rawFee : Option (List Nat)) (fee : Rat)
    (hfee : parseFeeField rawFee = some fee) :
    ((db.students.any fun s =>
        s.name == clean_name rawName && s.cls == pyStrip (rawCls.getD [])) = true →
      add_student db actor now newId rawName rawCls rawContact rawFee =
        some { store := db,
               flash := ⟨strCodes "⚠ A student with this name already exists in this class!",
                         strCodes "warning"⟩,
               redirect := strCodes "add_student" }) ∧
    ((db.students.any fun s =>
        s.name == clean_name rawName && s.cls == pyStrip (rawCls.getD [])) = false →
      add_student db actor now newId rawName rawCls rawContact rawFee =
        some { store :=
                 { students := db.students ++
                     [{ sid := newId, name := clean_name rawName,
                        cls := pyStrip (rawCls.getD []),
                        contact := pyStrip (rawContact.getD []), total_fee := fee,
                        payments := [], created_at := now, updated_at := now }],
                   logs := db.logs ++
                     [{ action := strCodes "add_student",
                        details := .addStudent newId (clean_name rawName),
                        by_ := actor.getD (strCodes "system"), at_ := now }] },
               flash := ⟨strCodes "Student added", strCodes "success"⟩,
               redirect := strCodes "students_list" }) := by
  constructor <;> intro hdup <;> simp [add_student, hfee, hdup, log_action]

/-- Witness for C3: with "John Doe" stored in class "5", creating
`" john   DOE "` in class "5" conflicts and leaves the store unchanged,
while the same raw name in class "6" succeeds and appends one document. -/
theorem add_student_unique_witness :
    (add_student ⟨[⟨1, strCodes "John Doe", strCodes "5", [], 0, [], 0, 0⟩], []⟩ none 7 2
        (some (strCodes "  john   DOE ")) (some (strCodes "5")) none none =
      some { store := ⟨[⟨1, strCodes "John Doe", strCodes "5", [], 0, [], 0, 0⟩], []⟩,
             flash := ⟨strCodes "⚠ A student with this name already exists in this class!",
                       strCodes "warning"⟩,
             redirect := strCodes "add_student" }) ∧
    ∃ r, add_student ⟨[⟨1, strCodes "John Doe", strCodes "5", [], 0, [], 0, 0⟩], []⟩ none 7 2
        (some (strCodes "  john   DOE ")) (some (strCodes "6")) none none = some r ∧
      r.store.students.length = 2 := by
  have h5 := add_student_unique ⟨[⟨1, strCodes "John Doe", strCodes "5", [], 0, [], 0, 0⟩], []⟩
    none 7 2 (some (strCodes "  john   DOE ")) (some (strCodes "5")) none none 0 (by decide)
  have h6 := add_student_unique ⟨[⟨1, strCodes "John Doe", strCodes "5", [], 0, [], 0, 0⟩], []⟩
    none 7 2 (some (strCodes "  john   DOE ")) (some (strCodes "6")) none none 0 (by decide)
  refine ⟨h5.1 (by decide), ⟨_, h6.2 (by decide), by decide⟩⟩

/-! ## Claim C5: Update frame conditions -/

/-- Claim C5: for an Update of an existing student (well-formed id that
resolves to a stored document, fee parsed), a duplicate conflict with a
record other than itself leaves the store entirely unchanged; otherwise the
matched document gets exactly name/class/contact/total_fee overwritten and
`updated_at` refreshed, while every student's `payments` and `created_at`
(and all other students) are untouched. -/
theorem edit_student_frame (db : Store) (actor : Option (List Nat)) (now : Nat)
    (sidStr : List Nat) (oid : Nat) (st : Student)
    (rawName rawCls rawContact rawFee : Option (List Nat)) (fee : Rat)
    (hoid : parseOid sidStr = some oid)
    (hfind : db.students.find? (fun s => s.sid == oid) = some st)
    (hfee : parseFeeField rawFee = some fee) :
    ((db.students.any fun s => s.name == clean_name rawName &&
        s.cls == pyStrip (rawCls.getD []) && !(s.sid == oid)) = true →
      edit_student db actor now sidStr rawName rawCls rawContact rawFee =
        some { store := db,
               flash := ⟨strCodes "⚠ Another student with this name already exists in this class!",
                         strCodes "warning"⟩,
               redirect := strCodes "edit_student" }) ∧
    ((db.students.any fun s => s.name == clean_name rawName &&
        s.cls == pyStrip (rawCls.getD []) && !(s.sid == oid)) = false →
      ∃ r, edit_student db actor now sidStr rawName rawCls rawContact rawFee = some r ∧
        r.store.students = updateFirst (fun s => s.sid == oid)
          (fun s => { s with name := clean_name rawName, cls := pyStrip (rawCls.getD []), contact := pyStrip (rawContact.getD []), total_fee := fee, updated_at := now }) db.students ∧
        r.store.students.map (fun s => (s.payments, s.created_at)) =
          db.students.map (fun s => (s.payments, s.created_at)) ∧
        r.store.logs = db.logs ++
          [{ action := strCodes "edit_student", details := .editStudent sidStr,
             by_ := actor.getD (strCodes "system"), at_ := now }] ∧
        r.flash = ⟨strCodes "Student updated", strCodes "success"⟩) := by
  constructor
  · intro hdup
    simp [edit_student, hoid, hfind, hfee, hdup]
  · intro hdup
    refine ⟨⟨log_action { db with students := updateFirst (fun s => s.sid == oid) (fun s => { s with name := clean_name rawName, cls := pyStrip (rawCls.getD []), contact := pyStrip (rawContact.getD []), total_fee := fee, updated_at := now }) db.students } (strCodes "edit_student") (.editStudent sidStr) actor now, ⟨strCodes "Student updated", strCodes "success"⟩, strCodes "students_list"⟩, ?_, rfl, ?_, rfl, rfl⟩
    · show edit_student db actor now sidStr rawName rawCls rawContact rawFee = _
      simp [edit_student, hoid, hfind, hfee, hdup, log_action]
    · exact updateFirst_map (fun s => s.sid == oid) (fun s => { s with name := clean_name rawName, cls := pyStrip (rawCls.getD []), contact := pyStrip (rawContact.getD []), total_fee := fee, updated_at := now }) (fun s => (s.payments, s.created_at)) (fun s => rfl) db.students

/-- Witness for C5 on a concrete two-student store: renaming student 0 to
the name of student 1 in the same class conflicts and persists nothing;
renaming it to a fresh name succeeds with payments/created_at untouched. -/
theorem edit_student_frame_witness :
    (edit_student ⟨[⟨0, strCodes "John Doe", strCodes "5", [], 0, [], 3, 3⟩,
        ⟨1, strCodes "Jane Doe", strCodes "5", [], 0, [], 3, 3⟩], []⟩ none 9
        (strCodes "000000000000000000000000")
        (some (strCodes "jane doe")) (some (strCodes "5")) none none =
      some { store := ⟨[⟨0, strCodes "John Doe", strCodes "5", [], 0, [], 3, 3⟩,
                        ⟨1, strCodes "Jane Doe", strCodes "5", [], 0, [], 3, 3⟩], []⟩,
             flash := ⟨strCodes "⚠ Another student with this name already exists in this class!",
                       strCodes "warning"⟩,
             redirect := strCodes "edit_student" }) ∧
    (∃ r, edit_student ⟨[⟨0, strCodes "John Doe", strCodes "5", [], 0, [], 3, 3⟩,
        ⟨1, strCodes "Jane Doe", strCodes "5", [], 0, [], 3, 3⟩], []⟩ none 9
        (strCodes "000000000000000000000000")
        (some (strCodes "johnny doe")) (some (strCodes "5")) none none = some r ∧
      r.store.students = updateFirst (fun s => s.sid == 0)
        (fun s => { s with name := clean_name (some (strCodes "johnny doe")), cls := pyStrip ((some (strCodes "5")).getD []), contact := pyStrip ((none : Option (List Nat)).getD []), total_fee := 0, updated_at := 9 })
        [⟨0, strCodes "John Doe", strCodes "5", [], 0, [], 3, 3⟩,
         ⟨1, strCodes "Jane Doe", strCodes "5", [], 0, [], 3, 3⟩] ∧
      r.store.students.map (fun s => (s.payments, s.created_at)) =
        ([⟨0, strCodes "John Doe", strCodes "5", [], 0, [], 3, 3⟩,
          ⟨1, strCodes "Jane Doe", strCodes "5", [], 0, [], 3, 3⟩] : List Student).map
          (fun s => (s.payments, s.created_at)) ∧
      r.store.logs = [] ++
        [{ action := strCodes "edit_student",
           details := .editStudent (strCodes "000000000000000000000000"),
           by_ := (none : Option (List Nat)).getD (strCodes "system"), at_ := 9 }] ∧
      r.flash = ⟨strCodes "Student updated", strCodes "success"⟩) := by
  have hc := edit_student_frame
    ⟨[⟨0, strCodes "John Doe", strCodes "5", [], 0, [], 3, 3⟩,
      ⟨1, strCodes "Jane Doe", strCodes "5", [], 0, [], 3, 3⟩], []⟩ none 9
    (strCodes "000000000000000000000000") 0
    ⟨0, strCodes "John Doe", strCodes "5", [], 0, [], 3, 3⟩
    (some (strCodes "jane doe")) (some (strCodes "5")) none none 0
    (by decide) (by decide) rfl
  have hs := edit_student_frame
    ⟨[⟨0, strCodes "John Doe", strCodes "5", [], 0, [], 3, 3⟩,
      ⟨1, strCodes "Jane Doe", strCodes "5", [], 0, [], 3, 3⟩], []⟩ none 9
    (strCodes "000000000000000000000000") 0
    ⟨0, strCodes "John Doe", strCodes "5", [], 0, [], 3, 3⟩
    (some (strCodes "johnny doe")) (some (strCodes "5")) none none 0
    (by decide) (by decide) rfl
  exact ⟨hc.1 (by decide), hs.2 (by decide)⟩

/-! ## Claims C6 and C10: missing ids on delete / payment -/

/-- Claim C6: with a well-formed identifier matching no stored student,
Delete and AppendPayment modify no student document and still follow the
success path (success flash plus redirect), raising no error. -/
theorem missing_id_noop (db : Store) (actor : Option (List Nat)) (now : Nat)
    (sidStr : List Nat) (oid : Nat) (rawAmount rawNote : Option (List Nat))
    (hoid : parseOid sidStr = some oid)
    (hmiss : ∀ s ∈ db.students, (s.sid == oid) = false) :
    (∃ r, delete_student db actor now sidStr = some r ∧
      r.store.students = db.students ∧
      r.flash = ⟨strCodes "Student deleted", strCodes "success"⟩ ∧
      r.redirect = strCodes "students_list") ∧
    (∃ r, add_payment db actor now sidStr rawAmount rawNote = some r ∧
      r.store.students = db.students ∧
      r.flash = ⟨strCodes "Payment recorded", strCodes "success"⟩ ∧
      r.redirect = strCodes "edit_student") := by
  constructor
  · refine ⟨⟨log_action { db with students := db.students.eraseP (fun s => s.sid == oid) } (strCodes "delete_student") (.deleteStudent sidStr) actor now, ⟨strCodes "Student deleted", strCodes "success"⟩, strCodes "students_list"⟩, ?_, ?_, rfl, rfl⟩
    · show delete_student db actor now sidStr = _
      unfold delete_student
      rw [hoid]
    · show db.students.eraseP (fun s => s.sid == oid) = db.students
      exact eraseP_no_match _ db.students hmiss
  · refine ⟨⟨log_action { db with students := updateFirst (fun s => s.sid == oid) (fun s => { s with payments := s.payments ++ [⟨parseAmountField rawAmount, now, rawNote⟩], updated_at := now }) db.students } (strCodes "add_payment") (.addPayment sidStr (parseAmountField rawAmount)) actor now, ⟨strCodes "Payment recorded", strCodes "success"⟩, strCodes "edit_student"⟩, ?_, ?_, rfl, rfl⟩
    · show add_payment db actor now sidStr rawAmount rawNote = _
      unfold add_payment
      rw [hoid]
    · show updateFirst (fun s => s.sid == oid) _ db.students = db.students
      exact updateFirst_no_match _ _ db.students hmiss

/-- Witness for C6: deleting / paying against id `0…0` in a store whose only
student has id 1. -/
theorem missing_id_noop_witness :
    (∃ r, delete_student ⟨[⟨1, strCodes "A", strCodes "5", [], 0, [], 0, 0⟩], []⟩ none 4
        (strCodes "000000000000000000000000") = some r ∧
      r.store.students = [⟨1, strCodes "A", strCodes "5", [], 0, [], 0, 0⟩] ∧
      r.flash = ⟨strCodes "Student deleted", strCodes "success"⟩ ∧
      r.redirect = strCodes "students_list") ∧
    (∃ r, add_payment ⟨[⟨1, strCodes "A", strCodes "5", [], 0, [], 0, 0⟩], []⟩ none 4
        (strCodes "000000000000000000000000") none none = some r ∧
      r.store.students = [⟨1, strCodes "A", strCodes "5", [], 0, [], 0, 0⟩] ∧
      r.flash = ⟨strCodes "Payment recorded", strCodes "success"⟩ ∧
      r.redirect = strCodes "edit_student") :=
  missing_id_noop ⟨[⟨1, strCodes "A", strCodes "5", [], 0, [], 0, 0⟩], []⟩ none 4
    (strCodes "000000000000000000000000") 0 none none (by decide) (by decide)

/-- Claim C10: with a well-formed identifier matching no stored student,
Delete and AppendPayment still append their audit-log entry
(`delete_student` / `add_payment`) and show a success notice, so the audit
log records operations that modified no document. -/
theorem missing_id_logged (db : Store) (actor : Option (List Nat)) (now : Nat)
    (sidStr : List Nat) (rawAmount rawNote : Option (List Nat)) (oid : Nat)
    (hoid : parseOid sidStr = some oid)
    (hmiss : ∀ s ∈ db.students, (s.sid == oid) = false) :
    (∃ r, delete_student db actor now sidStr = some r ∧
      r.store.students = db.students ∧
      r.store.logs = db.logs ++
        [{ action := strCodes "delete_student", details := .deleteStudent sidStr,
           by_ := actor.getD (strCodes "system"), at_ := now }] ∧
      r.flash.cat = strCodes "success") ∧
    (∃ r, add_payment db actor now sidStr rawAmount rawNote = some r ∧
      r.store.students = db.students ∧
      r.store.logs = db.logs ++
        [{ action := strCodes "add_payment",
           details := .addPayment sidStr (parseAmountField rawAmount),
           by_ := actor.getD (strCodes "system"), at_ := now }] ∧
      r.flash.cat = strCodes "success") := by
  constructor
  · refine ⟨⟨log_action { db with students := db.students.eraseP (fun s => s.sid == oid) } (strCodes "delete_student") (.deleteStudent sidStr) actor now, ⟨strCodes "Student deleted", strCodes "success"⟩, strCodes "students_list"⟩, ?_, ?_, rfl, rfl⟩
    · show delete_student db actor now sidStr = _
      unfold delete_student
      rw [hoid]
    · show db.students.eraseP (fun s => s.sid == oid) = db.students
      exact eraseP_no_match _ db.students hmiss
  · refine ⟨⟨log_action { db with students := updateFirst (fun s => s.sid == oid) (fun s => { s with payments := s.payments ++ [⟨parseAmountField rawAmount, now, rawNote⟩], updated_at := now }) db.students } (strCodes "add_payment") (.addPayment sidStr (parseAmountField rawAmount)) actor now, ⟨strCodes "Payment recorded", strCodes "success"⟩, strCodes "edit_student"⟩, ?_, ?_, rfl, rfl⟩
    · show add_payment db actor now sidStr rawAmount rawNote = _
      unfold add_payment
      rw [hoid]
    · show updateFirst (fun s => s.sid == oid) _ db.students = db.students
      exact updateFirst_no_match _ _ db.students hmiss

/-- Witness for C10 at the same concrete store and unmatched id. -/
theorem missing_id_logged_witness :
    (∃ r, delete_student ⟨[⟨1, strCodes "B", strCodes "6", [], 0, [], 0, 0⟩], []⟩ none 8
        (strCodes "000000000000000000000000") = some r ∧
      r.store.students = [⟨1, strCodes "B", strCodes "6", [], 0, [], 0, 0⟩] ∧
      r.store.logs = [] ++
        [{ action := strCodes "delete_student",
           details := .deleteStudent (strCodes "000000000000000000000000"),
           by_ := (none : Option (List Nat)).getD (strCodes "system"), at_ := 8 }] ∧
      r.flash.cat = strCodes "success") ∧
    (∃ r, add_payment ⟨[⟨1, strCodes "B", strCodes "6", [], 0, [], 0, 0⟩], []⟩ none 8
        (strCodes "000000000000000000000000") none none = some r ∧
      r.store.students = [⟨1, strCodes "B", strCodes "6", [], 0, [], 0, 0⟩] ∧
      r.store.logs = [] ++
        [{ action := strCodes "add_payment",
           details := .addPayment (strCodes "000000000000000000000000") (parseAmountField none),
           by_ := (none : Option (List Nat)).getD (strCodes "system"), at_ := 8 }] ∧
      r.flash.cat = strCodes "success") :=
  missing_id_logged ⟨[⟨1, strCodes "B", strCodes "6", [], 0, [], 0, 0⟩], []⟩ none 8
    (strCodes "000000000000000000000000") none none 0 (by decide) (by decide)

/-! ## Claim C9: malformed ids raise -/

/-- Claim C9: a path id that is not a syntactically valid `ObjectId` makes
edit, delete and add_payment raise an unhandled exception (modelled `none`),
rather than the not-found outcome or the silent no-op reserved for missing
ids. -/
theorem malformed_id_raises (db : Store) (actor : Option (List Nat)) (now : Nat)
    (sidStr : List Nat) (rawName rawCls rawContact rawFee rawAmount rawNote : Option (List Nat))
    (hbad : parseOid sidStr = none) :
    edit_student db actor now sidStr rawName rawCls rawContact rawFee = none ∧
    delete_student db actor now sidStr = none ∧
    add_payment db actor now sidStr rawAmount rawNote = none := by
  refine ⟨?_, ?_, ?_⟩ <;> simp [edit_student, delete_student, add_payment, hbad]

/-- Witness for C9 at the malformed id `"xyz"`. -/
theorem malformed_id_raises_witness :
    edit_student ⟨[], []⟩ none 0 (strCodes "xyz") none none none none = none ∧
    delete_student ⟨[], []⟩ none 0 (strCodes "xyz") = none ∧
    add_payment ⟨[], []⟩ none 0 (strCodes "xyz") none none = none :=
  malformed_id_raises ⟨[], []⟩ none 0 (strCodes "xyz") none none none none none none
    (by decide)

/-! ## Claim C7: generic login failure -/

/-- Claim C7: a login with an unknown username and a login with a known
username but wrong password produce the identical user-facing outcome — the
same generic "Invalid credentials" flash and redirect — so the response does
not reveal which field was wrong. -/
theorem login_generic_failure (admins : List Admin) (u1 p1 u2 p2 : List Nat) (a : Admin)
    (h1 : admins.find? (fun x => x.username == u1) = none)
    (h2 : admins.find? (fun x => x.username == u2) = some a)
    (h3 : check_password_hash a.password_hash p2 = false) :
    login admins u1 p1 = login admins u2 p2 ∧
    login admins u1 p1 =
      .failed ⟨strCodes "Invalid credentials", strCodes "error"⟩ (strCodes "login") := by
  have e1 : login admins u1 p1 =
      .failed ⟨strCodes "Invalid credentials", strCodes "error"⟩ (strCodes "login") := by
    unfold login
    rw [h1]
  have e2 : login admins u2 p2 =
      .failed ⟨strCodes "Invalid credentials", strCodes "error"⟩ (strCodes "login") := by
    unfold login
    rw [h2]
    simp [h3]
  exact ⟨e1.trans e2.symm, e1⟩

/-- Witness for C7: one admin `"admin"`; the unknown user `"ghost"` and the
wrong password `"wrong"` yield the same failure outcome. -/
theorem login_generic_failure_witness :
    login [⟨1, strCodes "admin", pwdHash (strCodes "pw")⟩] (strCodes "ghost") (strCodes "x") =
      login [⟨1, strCodes "admin", pwdHash (strCodes "pw")⟩] (strCodes "admin")
        (strCodes "wrong") ∧
    login [⟨1, strCodes "admin", pwdHash (strCodes "pw")⟩] (strCodes "ghost") (strCodes "x") =
      .failed ⟨strCodes "Invalid credentials", strCodes "error"⟩ (strCodes "login") :=
  login_generic_failure [⟨1, strCodes "admin", pwdHash (strCodes "pw")⟩]
    (strCodes "ghost") (strCodes "x") (strCodes "admin") (strCodes "wrong")
    ⟨1, strCodes "admin", pwdHash (strCodes "pw")⟩ (by decide) (by decide) (by decide)

end BrightHorizon
